import Mathlib

/-!
Verification development for the `automatic_bassline_transcriber` repository.

The embedding covers the transcriber core (`ablt/bass_line_transcriber/transcriber_class.py`)
and the batch extractor error handling (`bassline_extractor/bassline_extractor.py`).
Frequencies, durations and BPM values are modelled as exact rationals; Python's
`int(...)` truncation is modelled by `pyInt`.  External collaborators (file system,
numpy loading, the pretrained separation model, the pYIN estimator and the MIDI
writer) enter the model as explicit parameters.
-/

/-- Python `int(x)` on a real number truncates toward zero (`Rat.floor` keeps
the definition kernel-computable; for negative arguments the truncation is the
ceiling, `-⌊-q⌋`). -/
def pyInt (q : ℚ) : ℤ := if 0 ≤ q then q.floor else -(-q).floor

/-- Module constant `FS = 44100` (audio sample rate). -/
def FS : ℚ := 44100

/-- Module constant `F_MIN = 32.7`. -/
def F_MIN : ℚ := 327 / 10

/-- Module constant `T_MAX = 1/F_MIN` (longest period). -/
def T_MAX : ℚ := 1 / F_MIN

/-- Module constant `FRAME_LEN = int(T_MAX*FS)`. -/
def FRAME_LEN : ℤ := pyInt (T_MAX * FS)

/-- Module constant `OUTPUT_DIR = "data/outputs/"`. -/
def OUTPUT_DIR : String := "data/outputs/"

/-- Model of `os.path.join` for the two-argument, relative-path uses in the repo. -/
def pathJoin (a b : String) : String :=
  if a = "" then b
  else if a.endsWith "/" then a ++ b
  else if b.startsWith "/" then b
  else a ++ "/" ++ b

/-- Model of `os.path.basename` (posix). -/
def pathBasename (p : String) : String :=
  ((p.splitOn "/").getLast?).getD ""

/-- Stem of `os.path.splitext`: drop the extension after the last dot, keeping
leading-dot names whole. -/
def splitextStem (s : String) : String :=
  match s.splitOn "." with
  | [] => s
  | [_] => s
  | ["", _] => s
  | parts => String.intercalate "." parts.dropLast

/-- One sample of the F0 Track: (frequency_hz, confidence, voiced). -/
structure F0Sample where
  freq : ℚ
  confidence : ℚ
  voiced : Bool
deriving DecidableEq

/-- The pitch track produced by the pYIN stage: a time axis and the per-hop samples
(the code indexes the pair with `[0]` for times and `[1]` for values). -/
structure PitchTrack where
  times : List ℚ
  samples : List F0Sample
deriving DecidableEq

/-- One entry of the Quantized Pitch Track.  The adaptive strategy emits
`silence`, `inScale` (snapped to a scale member, with its degree index) or
`unknown` (raw out-of-scale frequency); the uniform strategy emits `snapped`
(nearest multiple of epsilon). -/
inductive QEntry where
  | silence : QEntry
  | inScale : ℚ → ℕ → QEntry
  | unknown : ℚ → QEntry
  | snapped : ℚ → QEntry
deriving DecidableEq

/-- The Quantized Pitch Track: a time axis and one entry per original F0 sample
(the code indexes the pair with `[1]` for the value sequence). -/
structure QuantizedPitchTrack where
  times : List ℚ
  entries : List QEntry
deriving DecidableEq

/-- Errors the modelled Python code can raise. -/
inductive PyError where
  | configurationError : String → PyError
  | attributeError : String → PyError
  | valueError : String → PyError
  | zeroDivisionError : PyError
deriving DecidableEq

/-- The constructor argument `M`: either a single int or a collection of ints
(`self.M = [M] if isinstance(M, int) else M`). -/
inductive MInput where
  | int : ℤ → MInput
  | list : List ℤ → MInput
deriving DecidableEq

/-- Normalization of `M` performed on line 52 of the constructor. -/
def normalizeM : MInput → List ℤ
  | .int m => [m]
  | .list ms => ms

/-- Line 58: `F0_sample_length = int((beat_duration / hop_factor)*FS)` with
`beat_duration = 60/BPM`. -/
def F0_sample_length (BPM hop_factor : ℚ) : ℤ :=
  pyInt ((60 / BPM / hop_factor) * FS)

/-- Line 59: `frame_factor = int(FRAME_LEN / F0_sample_length)`. -/
def frame_factor_of (BPM hop_factor : ℚ) : ℤ :=
  pyInt ((FRAME_LEN : ℚ) / (F0_sample_length BPM hop_factor : ℚ))

/-- The spec describes `frame_factor` as "the number of F0 samples per
quarter-beat": with `hop_factor` F0 samples per beat, that number is
`hop_factor / 4`. -/
def samplesPerQuarterBeat (hop_factor : ℚ) : ℚ := hop_factor / 4

/-- State of a `BassLineTranscriber` object. -/
structure TranscriberState where
  title : String
  key : String
  scale_type : String
  track_scale : List ℚ
  M : List ℤ
  N_bars : ℕ
  BPM : ℚ
  beat_duration : ℚ
  frame_factor : ℤ
  output_dir : String
  F0_estimate_dir : String
  pitch_track_dir : String
  quantized_pitch_track_dir : String
  midi_dir : String
  quarter_beat_positions : List ℚ
  bass_line : List ℚ
  silence_code : ℤ
  F0_estimate : Option (List ℚ)
  pitch_track : Option PitchTrack
  pitch_track_quantized : Option QuantizedPitchTrack
deriving DecidableEq

namespace BassLineTranscriber

/-- `BassLineTranscriber.__init__`.  External collaborators are passed in
explicitly: `lookupScale` models `get_track_scale` over `read_scale_frequencies`
(modelled from the spec: `ablt/utilities` is not under `src/`; per the spec an
unsupported key/mode name fails with ConfigurationError), `quarter_beat_positions`
is the result of the beat-position collaborators, and `bass_line` the contents of
`np.load(bass_line_path)`. -/
def init (bass_line_path : String) (BPM : ℚ) (key : String) (M : MInput)
    (N_bars : ℕ) (hop_factor : ℚ) (silence_code : ℤ)
    (lookupScale : String → String → Option (List ℚ))
    (quarter_beat_positions : List ℚ) (bass_line : List ℚ) :
    Except PyError TranscriberState :=
  match key.splitOn " " with
  | [k, scale_type] =>
    match lookupScale k scale_type with
    | none => .error (.configurationError "unknown key or scale type")
    | some track_scale =>
      if BPM = 0 then .error .zeroDivisionError
      else if hop_factor = 0 then .error .zeroDivisionError
      else if F0_sample_length BPM hop_factor = 0 then .error .zeroDivisionError
      else
        let title := splitextStem (pathBasename bass_line_path)
        let output_dir := pathJoin OUTPUT_DIR title
        .ok { title := title
              key := k
              scale_type := scale_type
              track_scale := track_scale
              M := normalizeM M
              N_bars := N_bars
              BPM := BPM
              beat_duration := 60 / BPM
              frame_factor := frame_factor_of BPM hop_factor
              output_dir := output_dir
              F0_estimate_dir := pathJoin output_dir "F0_estimate"
              pitch_track_dir := pathJoin output_dir "pitch_track"
              quantized_pitch_track_dir := pathJoin output_dir "quantized_pitch_track"
              midi_dir := pathJoin output_dir "midi"
              quarter_beat_positions := quarter_beat_positions
              bass_line := bass_line
              silence_code := silence_code
              F0_estimate := none
              pitch_track := none
              pitch_track_quantized := none }
  | _ => .error (.valueError "key does not split into key and scale type")

end BassLineTranscriber

/-! ## Region quantization (modelled from the spec)

The functions imported from `ablt/bass_line_transcriber/transcription.py` are
not under `src/`; the definitions below are modelled from the spec, sections
4.1 to 4.3. -/

set_option linter.unusedVariables false

/-- Accumulator step of the voiced-region scan. -/
def segmentStep : List Bool → ℕ → Option ℕ → List (ℕ × ℕ)
  | [], _, none => []
  | [], n, some s => [(s, n)]
  | b :: bs, i, none =>
    if b then segmentStep bs (i + 1) (some i) else segmentStep bs (i + 1) none
  | b :: bs, i, some s =>
    if b then segmentStep bs (i + 1) (some s)
    else (s, i) :: segmentStep bs (i + 1) none

/-- Modelled from the spec: the Voiced-Region Segmenter (section 4.2).  A single
linear scan over the voicing flags yielding the half-open spans where the flag
is true. -/
def segmentVoiced (flags : List Bool) : List (ℕ × ℕ) :=
  segmentStep flags 0 none

/-- Modelled from the spec: the Scale Model nearest-pitch query (section 4.1).
Returns the closest scale member together with its degree index, ties broken by
lower index; `none` only for an empty scale. -/
def nearest_scale_pitch (scale : List ℚ) (f : ℚ) : Option (ℚ × ℕ) :=
  scale.enum.foldl
    (fun best p =>
      match best with
      | none => some (p.2, p.1)
      | some (bf, bi) => if |f - p.2| < |f - bf| then some (p.2, p.1) else some (bf, bi))
    none

/-- Insertion into a sorted list, used by `median`. -/
def insertSorted (x : ℚ) : List ℚ → List ℚ
  | [] => [x]
  | y :: ys => if x ≤ y then x :: y :: ys else y :: insertSorted x ys

/-- Insertion sort on rationals, used by `median`. -/
def sortQ (l : List ℚ) : List ℚ := l.foldr insertSorted []

/-- Median of a list of rationals (average of the two middle elements for even
length); 0 on the empty list, which segmentation invariants rule out. -/
def median (l : List ℚ) : ℚ :=
  let s := sortQ l
  let n := l.length
  if n = 0 then 0
  else if n % 2 = 1 then s.getD (n / 2) 0
  else (s.getD (n / 2 - 1) 0 + s.getD (n / 2) 0) / 2

/-- Modelled from the spec: the representative entry the adaptive strategy emits
for one voiced region `[s, e)` (section 4.3): the region's median frequency is
snapped to the nearest scale member within tolerance `epsilon`; beyond the
tolerance the raw frequency is kept tagged unknown unless `filter_unk`
suppresses it to silence. -/
def regionEntry (samples : List F0Sample) (scale : List ℚ) (filter_unk : Bool)
    (epsilon : ℚ) (s e : ℕ) : QEntry :=
  let freqs := ((samples.drop s).take (e - s)).map (fun x => x.freq)
  let rep := median freqs
  match nearest_scale_pitch scale rep with
  | none => if filter_unk then .silence else .unknown rep
  | some (sf, deg) =>
    if |rep - sf| ≤ epsilon then .inScale sf deg
    else if filter_unk then .silence else .unknown rep

/-- Overwrite the entries with indices in `[s, e)` with `v`, keeping the rest. -/
def fillRegion (v : QEntry) (s e : ℕ) : List QEntry → ℕ → List QEntry
  | [], _ => []
  | x :: xs, i => (if s ≤ i ∧ i < e then v else x) :: fillRegion v s e xs (i + 1)

/-- Modelled from the spec: the per-sample entries of the adaptive strategy
(section 4.3).  Unvoiced samples map to silence; regions shorter than
`length_threshold` are merged into the surrounding silence; each remaining
region is filled with its representative entry. -/
def adaptiveEntries (samples : List F0Sample) (scale : List ℚ)
    (filter_unk : Bool) (length_threshold : ℤ) (epsilon : ℚ) : List QEntry :=
  let regions := segmentVoiced (samples.map (fun x => x.voiced))
  let base : List QEntry := samples.map (fun _ => .silence)
  regions.foldl
    (fun acc r =>
      if ((r.2 - r.1 : ℕ) : ℤ) < length_threshold then acc
      else fillRegion (regionEntry samples scale filter_unk epsilon r.1 r.2) r.1 r.2 acc 0)
    base

/-- Modelled from the spec: `adaptive_voiced_region_quantization` from
`ablt/bass_line_transcriber/transcription.py` is not under `src/`.  The spec
(section 4.3) has the adaptive strategy consume the pitch track and the scale
and produce one entry per original sample; the quarter-beat positions are
accepted as in the call site but the per-region policy does not depend on
them. -/
def adaptive_voiced_region_quantization (pitch_track : PitchTrack)
    (track_scale : List ℚ) (quarter_beat_positions : List ℚ)
    (filter_unk : Bool) (length_threshold : ℤ) (epsilon : ℚ) :
    QuantizedPitchTrack :=
  { times := pitch_track.times
    entries := adaptiveEntries pitch_track.samples track_scale filter_unk length_threshold epsilon }

/-- Nearest multiple of `epsilon`. -/
def snapToGrid (epsilon f : ℚ) : ℚ := (round (f / epsilon) : ℤ) * epsilon

/-- Modelled from the spec: `uniform_voiced_region_quantization` from
`ablt/bass_line_transcriber/transcription.py` is not under `src/`.  The spec
(section 4.3) has the uniform strategy snap every sample independently to the
nearest multiple of `epsilon`, ignoring region boundaries and scale membership;
the scale is accepted as in the call site but unused. -/
def uniform_voiced_region_quantization (pitch_track : PitchTrack)
    (track_scale : List ℚ) (epsilon : ℚ) : QuantizedPitchTrack :=
  { times := pitch_track.times
    entries := pitch_track.samples.map (fun x => .snapped (snapToGrid epsilon x.freq)) }

namespace BassLineTranscriber

/-- The argument record of the `pYIN_F0` call made by `extract_pitch_track`
(lines 87 to 91): note the literal `hop_factor=32`. -/
structure PYINCall where
  bass_line : List ℚ
  beat_duration : ℚ
  hop_factor : ℚ
  N_bars : ℕ
  threshold : ℚ
deriving DecidableEq

/-- The arguments `extract_pitch_track` passes to `pYIN_F0`. -/
def pYIN_call (st : TranscriberState) (pYIN_threshold : ℚ) : PYINCall :=
  { bass_line := st.bass_line
    beat_duration := st.beat_duration
    hop_factor := 32
    N_bars := st.N_bars
    threshold := pYIN_threshold }

/-- `BassLineTranscriber.extract_pitch_track`, with the external `pYIN_F0`
estimator passed in as a function of its argument record. -/
def extract_pitch_track (st : TranscriberState)
    (pYIN_F0 : PYINCall → List ℚ × PitchTrack) (pYIN_threshold : ℚ) :
    TranscriberState :=
  let r := pYIN_F0 (pYIN_call st pYIN_threshold)
  { st with F0_estimate := some r.1, pitch_track := some r.2 }

/-- Assignment of `self.pitch_track_quantized`. -/
def withQuantized (st : TranscriberState) (q : QuantizedPitchTrack) :
    TranscriberState :=
  { st with pitch_track_quantized := some q }

/-- `BassLineTranscriber.quantize_pitch_track` (lines 93 to 105).  The failed
`assert` is the spec's ConfigurationError; accessing the missing
`self.pitch_track` before `extract_pitch_track` ran is an AttributeError. -/
def quantize_pitch_track (st : TranscriberState) (filter_unk : Bool)
    (epsilon : ℚ) (quantization_scheme : String) :
    Except PyError TranscriberState :=
  if quantization_scheme = "adaptive" ∨ quantization_scheme = "uniform" then
    if quantization_scheme = "adaptive" then
      match st.pitch_track with
      | none => .error (.attributeError "pitch_track")
      | some pt =>
        .ok (withQuantized st (adaptive_voiced_region_quantization pt
          st.track_scale st.quarter_beat_positions filter_unk st.frame_factor epsilon))
    else
      match st.pitch_track with
      | none => .error (.attributeError "pitch_track")
      | some pt =>
        .ok (withQuantized st (uniform_voiced_region_quantization pt
          st.track_scale epsilon))
  else .error (.configurationError "Choose between adaptive and uniform quantization!")

/-- One export performed by `create_bass_line_MIDI_file`: the downsampling
factor, the event array built for it, and the directory it is exported to. -/
structure MidiExport where
  m : ℤ
  array : List (ℤ × ℤ × ℤ)
  dir : String
deriving DecidableEq

/-- `BassLineTranscriber.create_bass_line_MIDI_file` (lines 107 to 118).  The
external builders `frequency_to_midi_sequence` and `midi_sequence_to_midi_array`
(not under `src/`) are passed in as functions; the midi sequence is derived once
from the quantized pitch track value sequence (`self.pitch_track_quantized[1]`),
then one event array is built per element of `self.M` and exported to the
per-factor directory `os.path.join(self.midi_dir, str(m))`. -/
def create_bass_line_MIDI_file (st : TranscriberState)
    (frequency_to_midi_sequence : List QEntry → ℤ → List ℤ)
    (midi_sequence_to_midi_array : List ℤ → ℤ → ℤ → ℤ → List (ℤ × ℤ × ℤ)) :
    Except PyError (List MidiExport) :=
  match st.pitch_track_quantized with
  | none => .error (.attributeError "pitch_track_quantized")
  | some ptq =>
    let midi_sequence := frequency_to_midi_sequence ptq.entries st.silence_code
    .ok (st.M.map (fun m =>
      { m := m
        array := midi_sequence_to_midi_array midi_sequence m st.frame_factor st.silence_code
        dir := pathJoin st.midi_dir (toString m) }))

end BassLineTranscriber

/-! ## Batch extractor error handling (`bassline_extractor/bassline_extractor.py`) -/

/-- The exceptions the extraction body can raise: `KeyboardInterrupt` plus the
subclasses of `Exception` (the named ones the handlers distinguish, and
`otherException` standing for any other `Exception` subclass). -/
inductive PyExc where
  | keyboardInterrupt : PyExc
  | keyError : PyExc
  | fileNotFoundError : PyExc
  | runtimeError : PyExc
  | otherException : PyExc
deriving DecidableEq

/-- The exception classes the `except` clauses of `extract_single_bassline`
name. -/
inductive PyExcClass where
  | keyboardInterruptC : PyExcClass
  | keyErrorC : PyExcClass
  | fileNotFoundErrorC : PyExcClass
  | runtimeErrorC : PyExcClass
  | exceptionC : PyExcClass
deriving DecidableEq

/-- Python instance check for an `except` clause: each named class matches its
own instances and `Exception` matches everything except `KeyboardInterrupt`,
which does not derive from it. -/
def matchesClass : PyExcClass → PyExc → Bool
  | .keyboardInterruptC, .keyboardInterrupt => true
  | .keyboardInterruptC, _ => false
  | .keyErrorC, .keyError => true
  | .keyErrorC, _ => false
  | .fileNotFoundErrorC, .fileNotFoundError => true
  | .fileNotFoundErrorC, _ => false
  | .runtimeErrorC, .runtimeError => true
  | .runtimeErrorC, _ => false
  | .exceptionC, .keyboardInterrupt => false
  | .exceptionC, _ => true

/-- The record written by `exception_logger` (lines 70 to 74): an entry appended
to `{date}_{text_id}.txt` inside the exceptions directory, recording the track
title. -/
structure LogEntry where
  path : String
  title : String
  text_id : String
deriving DecidableEq

/-- `exception_logger(directories, ex, date, title, text_id)` as the log record
it appends under `directories['extraction']['exceptions']`. -/
def exception_logger (exceptionsDir date title text_id : String) : LogEntry :=
  { path := pathJoin exceptionsDir (date ++ "_" ++ text_id ++ ".txt")
    title := title
    text_id := text_id }

/-- Observable outcome of a call to `extract_single_bassline`: a normal return
(with the log entry written, if any), a process exit via `sys.exit()`, or an
exception escaping to the caller. -/
inductive Outcome where
  | completed : Option LogEntry → Outcome
  | exited : Outcome
  | propagated : PyExc → Outcome
deriving DecidableEq

/-- Python try/except evaluation: the first handler whose class matches the
raised exception runs; with no match the exception propagates. -/
def tryExcept (body : Option PyExc)
    (handlers : List (PyExcClass × (PyExc → Outcome))) : Outcome :=
  match body with
  | none => .completed none
  | some e =>
    match handlers.find? (fun h => matchesClass h.1 e) with
    | some h => h.2 e
    | none => .propagated e

/-- `extract_single_bassline` (lines 26 to 67), abstracted over the outcome of
its body: `body = none` when the extraction steps complete, `some e` when they
raise `e`.  The handler chain is the source's: `KeyboardInterrupt` calls
`sys.exit()` (modelled as `Outcome.exited`: the raised `SystemExit` is not
caught by the later clauses and terminates the process), and the four remaining
clauses log through `exception_logger` with their `text_id` and fall through to
a normal return. -/
def extract_single_bassline (body : Option PyExc)
    (exceptionsDir date title : String) : Outcome :=
  tryExcept body
    [(.keyboardInterruptC, fun _ => .exited),
     (.keyErrorC, fun _ => .completed (some (exception_logger exceptionsDir date title "KeyError"))),
     (.fileNotFoundErrorC, fun _ => .completed (some (exception_logger exceptionsDir date title "FileNotFoundError"))),
     (.runtimeErrorC, fun _ => .completed (some (exception_logger exceptionsDir date title "RuntimeError"))),
     (.exceptionC, fun _ => .completed (some (exception_logger exceptionsDir date title "unexpected")))]

/-- The `text_id` string the handler for each catchable exception passes to
`exception_logger` (empty for `KeyboardInterrupt`, whose handler does not
log). -/
def textIdOf : PyExc → String
  | .keyboardInterrupt => ""
  | .keyError => "KeyError"
  | .fileNotFoundError => "FileNotFoundError"
  | .runtimeError => "RuntimeError"
  | .otherException => "unexpected"

/-! ## Helper lemmas -/

theorem fillRegion_length (v : QEntry) (s e : ℕ) :
    ∀ (l : List QEntry) (i : ℕ), (fillRegion v s e l i).length = l.length := by
  intro l
  induction l with
  | nil => intro i; rfl
  | cons x xs ih => intro i; simp [fillRegion, ih]

theorem foldl_length_eq {α : Type} (step : List QEntry → α → List QEntry)
    (hstep : ∀ acc a, (step acc a).length = acc.length) :
    ∀ (rs : List α) (acc : List QEntry), (rs.foldl step acc).length = acc.length := by
  intro rs
  induction rs with
  | nil => intro acc; rfl
  | cons r rs ih => intro acc; rw [List.foldl_cons, ih, hstep]

theorem adaptiveEntries_length (samples : List F0Sample) (scale : List ℚ)
    (filter_unk : Bool) (length_threshold : ℤ) (epsilon : ℚ) :
    (adaptiveEntries samples scale filter_unk length_threshold epsilon).length
      = samples.length := by
  unfold adaptiveEntries
  rw [foldl_length_eq]
  · exact List.length_map samples _
  · intro acc r
    by_cases h : ((r.2 - r.1 : ℕ) : ℤ) < length_threshold
    · simp [h]
    · simp [h, fillRegion_length]

theorem adaptive_entries_length (pitch_track : PitchTrack) (track_scale : List ℚ)
    (qbp : List ℚ) (filter_unk : Bool) (length_threshold : ℤ) (epsilon : ℚ) :
    (adaptive_voiced_region_quantization pitch_track track_scale qbp filter_unk
        length_threshold epsilon).entries.length = pitch_track.samples.length :=
  adaptiveEntries_length _ _ _ _ _

theorem uniform_entries_length (pitch_track : PitchTrack) (track_scale : List ℚ)
    (epsilon : ℚ) :
    (uniform_voiced_region_quantization pitch_track track_scale
        epsilon).entries.length = pitch_track.samples.length :=
  List.length_map _ _

/-! ## Concrete fixtures used by the witnesses -/

/-- A concrete scale lookup: every (key, scale type) pair resolves to A2/C3. -/
def lk0 : String → String → Option (List ℚ) := fun _ _ => some [110, 130]

/-- A concrete pitch track: two unvoiced samples followed by a voiced region
of four samples around 110 Hz. -/
def pt0 : PitchTrack :=
  { times := [0, 1, 2, 3, 4, 5]
    samples := [{ freq := 0, confidence := 0, voiced := false },
                { freq := 0, confidence := 0, voiced := false },
                { freq := 110, confidence := 9/10, voiced := true },
                { freq := 111, confidence := 9/10, voiced := true },
                { freq := 109, confidence := 8/10, voiced := true },
                { freq := 110, confidence := 9/10, voiced := true }] }

/-- A concrete quantized pitch track. -/
def ptq0 : QuantizedPitchTrack :=
  { times := [0, 1], entries := [.silence, .inScale 110 0] }

/-- A concrete transcriber state with an extracted pitch track. -/
def st0 : TranscriberState :=
  { title := "bassline"
    key := "a"
    scale_type := "minor"
    track_scale := [110, 130]
    M := [1, 2]
    N_bars := 4
    BPM := 120
    beat_duration := 1/2
    frame_factor := 3
    output_dir := "data/outputs/bassline"
    F0_estimate_dir := "data/outputs/bassline/F0_estimate"
    pitch_track_dir := "data/outputs/bassline/pitch_track"
    quantized_pitch_track_dir := "data/outputs/bassline/quantized_pitch_track"
    midi_dir := "data/outputs/bassline/midi"
    quarter_beat_positions := [0, 16, 32]
    bass_line := [0, 1]
    silence_code := 0
    F0_estimate := some [110]
    pitch_track := some pt0
    pitch_track_quantized := some ptq0 }

/-- `st0` with unrelated fields changed, to exercise determinism. -/
def st1 : TranscriberState := { st0 with title := "other", silence_code := 5 }

/-- The state produced by quantizing `st0` adaptively. -/
def st0q : TranscriberState :=
  ((BassLineTranscriber.quantize_pitch_track st0 false 1 "adaptive").toOption).getD st0

/-- A concrete midi-sequence builder for the witnesses. -/
def f2m0 : List QEntry → ℤ → List ℤ := fun l c => l.map (fun _ => c)

/-- A concrete event-array builder for the witnesses. -/
def m2a0 : List ℤ → ℤ → ℤ → ℤ → List (ℤ × ℤ × ℤ) := fun _ m nqb sc => [(m, nqb, sc)]

/-! ## Claims -/


/-- Claim C1: for every F0 pitch track and every configuration, the quantized
pitch track produced by `quantize_pitch_track` (under either the adaptive or
the uniform scheme, i.e. whenever the call returns normally) has the same
length as the input F0 track. -/
theorem quantize_pitch_track_preserves_length (st : TranscriberState)
    (filter_unk : Bool) (epsilon : ℚ) (quantization_scheme : String)
    (pt : PitchTrack) (st' : TranscriberState)
    (hpt : st.pitch_track = some pt)
    (hok : BassLineTranscriber.quantize_pitch_track st filter_unk epsilon
      quantization_scheme = .ok st') :
    st'.pitch_track_quantized.map (fun q => q.entries.length)
      = some pt.samples.length := by
  unfold BassLineTranscriber.quantize_pitch_track at hok
  by_cases h : quantization_scheme = "adaptive" ∨ quantization_scheme = "uniform"
  · rw [if_pos h] at hok
    by_cases ha : quantization_scheme = "adaptive"
    · rw [if_pos ha, hpt] at hok
      simp only [Except.ok.injEq] at hok
      subst hok
      simp [BassLineTranscriber.withQuantized, adaptive_entries_length]
    · rw [if_neg ha, hpt] at hok
      simp only [Except.ok.injEq] at hok
      subst hok
      simp [BassLineTranscriber.withQuantized, uniform_entries_length]
  · rw [if_neg h] at hok
    exact absurd hok (by simp)

/-- Witness for C1 at the concrete state `st0`. -/
theorem quantize_pitch_track_preserves_length_witness :
    st0q.pitch_track_quantized.map (fun q => q.entries.length)
      = some pt0.samples.length :=
  quantize_pitch_track_preserves_length st0 false 1 "adaptive" pt0 st0q rfl rfl

/-- Claim C8: `quantize_pitch_track` leaves the F0 track unchanged; after a
normal return, the transcriber's `pitch_track` and `F0_estimate` equal their
values before the call. -/
theorem quantize_pitch_track_preserves_f0 (st : TranscriberState)
    (filter_unk : Bool) (epsilon : ℚ) (quantization_scheme : String)
    (st' : TranscriberState)
    (hok : BassLineTranscriber.quantize_pitch_track st filter_unk epsilon
      quantization_scheme = .ok st') :
    st'.pitch_track = st.pitch_track ∧ st'.F0_estimate = st.F0_estimate := by
  unfold BassLineTranscriber.quantize_pitch_track at hok
  by_cases h : quantization_scheme = "adaptive" ∨ quantization_scheme = "uniform"
  · rw [if_pos h] at hok
    by_cases ha : quantization_scheme = "adaptive"
    · rw [if_pos ha] at hok
      cases hcase : st.pitch_track with
      | none => rw [hcase] at hok; exact absurd hok (by simp)
      | some pt =>
        rw [hcase] at hok
        simp only [Except.ok.injEq] at hok
        subst hok
        exact ⟨hcase, rfl⟩
    · rw [if_neg ha] at hok
      cases hcase : st.pitch_track with
      | none => rw [hcase] at hok; exact absurd hok (by simp)
      | some pt =>
        rw [hcase] at hok
        simp only [Except.ok.injEq] at hok
        subst hok
        exact ⟨hcase, rfl⟩
  · rw [if_neg h] at hok
    exact absurd hok (by simp)

/-- Witness for C8 at the concrete state `st0`. -/
theorem quantize_pitch_track_preserves_f0_witness :
    st0q.pitch_track = st0.pitch_track ∧ st0q.F0_estimate = st0.F0_estimate :=
  quantize_pitch_track_preserves_f0 st0 false 1 "adaptive" st0q rfl

/-- Claim C7: `quantize_pitch_track` is deterministic with no hidden state: its
outcome, as far as the quantized pitch track is concerned, depends only on the
F0 pitch track, the scale, the quarter-beat positions and the length threshold,
so re-running it on the same data and configuration yields an identical
quantized pitch track. -/
theorem quantize_pitch_track_deterministic (stA stB : TranscriberState)
    (filter_unk : Bool) (epsilon : ℚ) (quantization_scheme : String)
    (h1 : stA.pitch_track = stB.pitch_track)
    (h2 : stA.track_scale = stB.track_scale)
    (h3 : stA.quarter_beat_positions = stB.quarter_beat_positions)
    (h4 : stA.frame_factor = stB.frame_factor) :
    (BassLineTranscriber.quantize_pitch_track stA filter_unk epsilon
        quantization_scheme).map (fun s => s.pitch_track_quantized)
      = (BassLineTranscriber.quantize_pitch_track stB filter_unk epsilon
        quantization_scheme).map (fun s => s.pitch_track_quantized) := by
  unfold BassLineTranscriber.quantize_pitch_track
  by_cases h : quantization_scheme = "adaptive" ∨ quantization_scheme = "uniform"
  · rw [if_pos h, if_pos h]
    by_cases ha : quantization_scheme = "adaptive"
    · rw [if_pos ha, if_pos ha, ← h1, ← h2, ← h3, ← h4]
      cases hcase : stA.pitch_track with
      | none => rfl
      | some pt => rfl
    · rw [if_neg ha, if_neg ha, ← h1, ← h2]
      cases hcase : stA.pitch_track with
      | none => rfl
      | some pt => rfl
  · rw [if_neg h, if_neg h]

/-- Witness for C7: two states agreeing on the quantizer inputs but differing
elsewhere produce the same quantized pitch track. -/
theorem quantize_pitch_track_deterministic_witness :
    (BassLineTranscriber.quantize_pitch_track st0 false 1 "adaptive").map
        (fun s => s.pitch_track_quantized)
      = (BassLineTranscriber.quantize_pitch_track st1 false 1 "adaptive").map
        (fun s => s.pitch_track_quantized) :=
  quantize_pitch_track_deterministic st0 st1 false 1 "adaptive" rfl rfl rfl rfl

/-- Claim C3: for every value of `quantization_scheme` other than "adaptive" or
"uniform", `quantize_pitch_track` raises the configuration error immediately
(so no quantized pitch track is produced); for "adaptive" it invokes the
adaptive strategy and for "uniform" the uniform strategy. -/
theorem quantize_pitch_track_dispatch (st : TranscriberState)
    (filter_unk : Bool) (epsilon : ℚ) (quantization_scheme : String) :
    (quantization_scheme ≠ "adaptive" → quantization_scheme ≠ "uniform" →
      BassLineTranscriber.quantize_pitch_track st filter_unk epsilon
          quantization_scheme
        = .error (.configurationError
            "Choose between adaptive and uniform quantization!"))
    ∧ (∀ pt, st.pitch_track = some pt →
        BassLineTranscriber.quantize_pitch_track st filter_unk epsilon "adaptive"
          = .ok (BassLineTranscriber.withQuantized st
              (adaptive_voiced_region_quantization pt st.track_scale
                st.quarter_beat_positions filter_unk st.frame_factor epsilon)))
    ∧ (∀ pt, st.pitch_track = some pt →
        BassLineTranscriber.quantize_pitch_track st filter_unk epsilon "uniform"
          = .ok (BassLineTranscriber.withQuantized st
              (uniform_voiced_region_quantization pt st.track_scale epsilon))) := by
  refine ⟨?_, ?_, ?_⟩
  · intro ha hu
    unfold BassLineTranscriber.quantize_pitch_track
    rw [if_neg (fun hc => hc.elim ha hu)]
  · intro pt hpt
    unfold BassLineTranscriber.quantize_pitch_track
    rw [if_pos (Or.inl rfl), if_pos rfl, hpt]
  · intro pt hpt
    unfold BassLineTranscriber.quantize_pitch_track
    rw [if_pos (Or.inr rfl), if_neg (by decide), hpt]

/-- Witness for C3: at `st0`, an invalid scheme errors and both valid schemes
dispatch to their strategies. -/
theorem quantize_pitch_track_dispatch_witness :
    BassLineTranscriber.quantize_pitch_track st0 false 1 "bogus"
        = .error (.configurationError
            "Choose between adaptive and uniform quantization!")
    ∧ BassLineTranscriber.quantize_pitch_track st0 false 1 "adaptive"
        = .ok (BassLineTranscriber.withQuantized st0
            (adaptive_voiced_region_quantization pt0 st0.track_scale
              st0.quarter_beat_positions false st0.frame_factor 1))
    ∧ BassLineTranscriber.quantize_pitch_track st0 false 1 "uniform"
        = .ok (BassLineTranscriber.withQuantized st0
            (uniform_voiced_region_quantization pt0 st0.track_scale 1)) :=
  ⟨(quantize_pitch_track_dispatch st0 false 1 "bogus").1 (by decide) (by decide),
   (quantize_pitch_track_dispatch st0 false 1 "adaptive").2.1 pt0 rfl,
   (quantize_pitch_track_dispatch st0 false 1 "uniform").2.2 pt0 rfl⟩

/-- `Rat.floor` agrees with the floor of the `FloorRing` instance. -/
theorem ratFloor_eq_floor (q : ℚ) : q.floor = ⌊q⌋ := by
  rw [Rat.floor_def', Rat.floor_def]

/-- On nonnegative arguments Python truncation is the floor. -/
theorem pyInt_nonneg_eq_floor (q : ℚ) (h : 0 ≤ q) : pyInt q = ⌊q⌋ := by
  unfold pyInt
  rw [if_pos h, ratFloor_eq_floor]

/-- The value `int(T_MAX*FS)` computed at module load. -/
theorem FRAME_LEN_eq : FRAME_LEN = 1348 := by with_unfolding_all rfl

/-- Closed form of the frame factor computed on lines 58 and 59: the number of
F0 samples per pYIN estimation frame. -/
theorem frame_factor_of_closed (BPM hop_factor : ℚ)
    (hB : 0 < BPM) (hh : 0 < hop_factor)
    (hnz : F0_sample_length BPM hop_factor ≠ 0) :
    frame_factor_of BPM hop_factor
      = ⌊(1348 : ℚ) / ((⌊(2646000 : ℚ) / (BPM * hop_factor)⌋ : ℤ) : ℚ)⌋ := by
  have harg : (60 / BPM / hop_factor) * FS = 2646000 / (BPM * hop_factor) := by
    unfold FS
    field_simp
    ring
  have hpos : (0 : ℚ) < 2646000 / (BPM * hop_factor) := by positivity
  have hfsl : F0_sample_length BPM hop_factor
      = ⌊(2646000 : ℚ) / (BPM * hop_factor)⌋ := by
    unfold F0_sample_length
    rw [harg, pyInt_nonneg_eq_floor _ hpos.le]
  have hge : (0 : ℤ) ≤ ⌊(2646000 : ℚ) / (BPM * hop_factor)⌋ :=
    Int.floor_nonneg.mpr hpos.le
  have hnz2 : ⌊(2646000 : ℚ) / (BPM * hop_factor)⌋ ≠ 0 := by
    rw [hfsl] at hnz
    exact hnz
  have hgt : (0 : ℤ) < ⌊(2646000 : ℚ) / (BPM * hop_factor)⌋ :=
    lt_of_le_of_ne hge (Ne.symm hnz2)
  have hdiv : (0 : ℚ) ≤ ((FRAME_LEN : ℤ) : ℚ)
      / ((⌊(2646000 : ℚ) / (BPM * hop_factor)⌋ : ℤ) : ℚ) := by
    apply div_nonneg
    · rw [FRAME_LEN_eq]; norm_num
    · exact_mod_cast hgt.le
  unfold frame_factor_of
  rw [hfsl, pyInt_nonneg_eq_floor _ hdiv, FRAME_LEN_eq]
  norm_num

/-- Claim C2 (amended): the minimum-length threshold the transcriber passes to
the adaptive Region Quantizer is `self.frame_factor`, and it equals the number
of F0 samples per pYIN estimation frame,
`int(int(T_MAX*FS) / int((60/BPM/hop_factor)*FS))` — not the number of F0
samples per quarter-beat. -/
theorem frame_factor_eq_samples_per_estimation_frame
    (p key : String) (M : MInput) (n : ℕ) (s : ℤ)
    (lk : String → String → Option (List ℚ)) (qb bl : List ℚ)
    (BPM hop_factor : ℚ) (st : TranscriberState)
    (hB : 0 < BPM) (hh : 0 < hop_factor)
    (hok : BassLineTranscriber.init p BPM key M n hop_factor s lk qb bl = .ok st) :
    st.frame_factor
      = ⌊(1348 : ℚ) / ((⌊(2646000 : ℚ) / (BPM * hop_factor)⌋ : ℤ) : ℚ)⌋ := by
  unfold BassLineTranscriber.init at hok
  split at hok
  · split at hok
    · exact absurd hok (by simp)
    · split_ifs at hok with c1 c2 c3
      simp only [Except.ok.injEq] at hok
      subst hok
      exact frame_factor_of_closed BPM hop_factor hB hh c3
  · exact absurd hok (by simp)

/-- The state produced by constructing a transcriber at BPM 140, hop factor
64. -/
def st2 : TranscriberState :=
  ((BassLineTranscriber.init "x/bassline.npy" 140 "a minor" (.int 1) 4 64 0
    lk0 [] []).toOption).getD st0

/-- Witness for C2 (amended) at BPM 140, hop factor 64. -/
theorem frame_factor_eq_samples_per_estimation_frame_witness :
    st2.frame_factor
      = ⌊(1348 : ℚ) / ((⌊(2646000 : ℚ) / ((140 : ℚ) * 64)⌋ : ℤ) : ℚ)⌋ :=
  frame_factor_eq_samples_per_estimation_frame "x/bassline.npy" "a minor"
    (.int 1) 4 0 lk0 [] [] 140 64 st2 (by norm_num) (by norm_num)
    (by with_unfolding_all rfl)

/-- Counterexample for C2 as stated: at BPM 120 and the default
`hop_factor = 64`, the constructed transcriber's `frame_factor` — the
`length_threshold` handed to the adaptive quantizer — is 3, while the number of
F0 samples per quarter-beat is `64 / 4 = 16`. -/
theorem frame_factor_not_samples_per_quarter_beat :
    (BassLineTranscriber.init "x/bassline.npy" 120 "a minor" (.int 1) 4 64 0
        lk0 [] []).map (fun st => st.frame_factor) = .ok 3
    ∧ samplesPerQuarterBeat 64 = 16
    ∧ ((3 : ℚ) ≠ 16) := by
  refine ⟨by with_unfolding_all rfl, ?_, by norm_num⟩
  unfold samplesPerQuarterBeat
  norm_num

/-- Claim C4 (amended): the constructor performs no validation of the
downsampling factor `M` at all: for every integer `m` — inside or outside
`{1,2,4,8}` — construction succeeds (whenever its other inputs are well formed)
and merely normalizes `M` to the one-element list `[m]`. -/
theorem init_ignores_M_validation
    (p : String) (BPM : ℚ) (key : String) (m : ℤ) (n : ℕ) (hop_factor : ℚ)
    (s : ℤ) (lk : String → String → Option (List ℚ)) (qb bl : List ℚ)
    (k sct : String) (sc : List ℚ)
    (hsplit : key.splitOn " " = [k, sct])
    (hlk : lk k sct = some sc)
    (hB : BPM ≠ 0) (hh : hop_factor ≠ 0)
    (hF : F0_sample_length BPM hop_factor ≠ 0) :
    (BassLineTranscriber.init p BPM key (.int m) n hop_factor s lk qb bl).map
      (fun st => st.M) = .ok [m] := by
  unfold BassLineTranscriber.init
  rw [hsplit]
  simp only [hlk, if_neg hB, if_neg hh, if_neg hF]
  rfl

/-- Witness for C4 (amended): the out-of-range factor `M = 5` is accepted. -/
theorem init_ignores_M_validation_witness :
    (BassLineTranscriber.init "y.npy" 100 "c minor" (.int 5) 4 64 0 lk0
      [] []).map (fun st => st.M) = .ok [5] :=
  init_ignores_M_validation "y.npy" 100 "c minor" 5 4 64 0 lk0 [] []
    "c" "minor" [110, 130] (by with_unfolding_all rfl) rfl (by norm_num)
    (by norm_num) (by with_unfolding_all decide)

/-- Counterexample for C4 as stated: constructing with `M = 3`, which is
outside `{1,2,4,8}`, raises nothing — the constructor returns a transcriber
whose decimation-rate list is `[3]`. -/
theorem init_accepts_M_outside_allowed_set :
    (BassLineTranscriber.init "x/bassline.npy" 120 "a minor" (.int 3) 4 64 0
      lk0 [] []).map (fun st => st.M) = .ok [3] := by
  with_unfolding_all rfl

/-- Claim C5 (amended): `extract_pitch_track` always performs the F0 estimation
with the literal `hop_factor=32` passed to `pYIN_F0`, whatever `hop_factor` was
configured at construction (the configured value is used only to derive
`frame_factor`). -/
theorem pYIN_call_hop_factor_constant (st : TranscriberState)
    (pYIN_F0 : BassLineTranscriber.PYINCall → List ℚ × PitchTrack)
    (pYIN_threshold : ℚ) :
    (BassLineTranscriber.pYIN_call st pYIN_threshold).hop_factor = 32
    ∧ BassLineTranscriber.extract_pitch_track st pYIN_F0 pYIN_threshold
        = { st with
            F0_estimate :=
              some (pYIN_F0 (BassLineTranscriber.pYIN_call st pYIN_threshold)).1
            pitch_track :=
              some (pYIN_F0 (BassLineTranscriber.pYIN_call st pYIN_threshold)).2 } :=
  ⟨rfl, rfl⟩

/-- Counterexample for C5 as stated: a transcriber constructed with
`hop_factor = 64` still calls the pitch estimator with `hop_factor = 32`. -/
theorem extract_pitch_track_ignores_configured_hop_factor :
    (BassLineTranscriber.init "x/bassline.npy" 120 "a minor" (.int 1) 4 64 0
        lk0 [] []).map
      (fun st => (BassLineTranscriber.pYIN_call st (1/20)).hop_factor)
      = .ok 32
    ∧ ((32 : ℚ) ≠ 64) := by
  refine ⟨by with_unfolding_all rfl, by norm_num⟩

/-- Claim C9: constructing with the integer `M = m` is identical to
constructing with the one-element list `M = [m]`; since every later method
reads only the resulting state, all downstream per-M processing agrees as
well. -/
theorem init_int_M_eq_singleton_list (p : String) (BPM : ℚ) (key : String)
    (m : ℤ) (n : ℕ) (hop_factor : ℚ) (s : ℤ)
    (lk : String → String → Option (List ℚ)) (qb bl : List ℚ) :
    BassLineTranscriber.init p BPM key (.int m) n hop_factor s lk qb bl
      = BassLineTranscriber.init p BPM key (.list [m]) n hop_factor s lk qb bl := rfl

/-- Appending on the left of a string is injective. -/
theorem string_append_cancel_left {a b c : String} (h : a ++ b = a ++ c) :
    b = c := by
  obtain ⟨la⟩ := a
  obtain ⟨lb⟩ := b
  obtain ⟨lc⟩ := c
  have hd : la ++ lb = la ++ lc := congrArg String.data h
  exact congrArg String.mk (List.append_cancel_left hd)

/-- Joining two distinct relative names under the same directory yields
distinct paths. -/
theorem pathJoin_right_ne (d x y : String) (hx : x.startsWith "/" = false)
    (hy : y.startsWith "/" = false) (hxy : x ≠ y) :
    pathJoin d x ≠ pathJoin d y := by
  unfold pathJoin
  intro h
  apply hxy
  by_cases h1 : d = ""
  · rw [if_pos h1, if_pos h1] at h
    exact h
  · rw [if_neg h1, if_neg h1] at h
    by_cases h2 : d.endsWith "/"
    · rw [if_pos h2, if_pos h2] at h
      exact string_append_cancel_left h
    · rw [if_neg h2, if_neg h2] at h
      rw [if_neg (by simp [hx]), if_neg (by simp [hy])] at h
      exact string_append_cancel_left h

/-- Claim C6: for every configured collection of downsampling factors,
`create_bass_line_MIDI_file` builds exactly one MIDI event array per element of
`M` — each from the one midi sequence derived from the quantized pitch track —
and exports each to its own per-factor directory `join(midi_dir, str(m))`
(distinct directories for distinct factors). -/
theorem create_bass_line_MIDI_file_per_M (st : TranscriberState)
    (frequency_to_midi_sequence : List QEntry → ℤ → List ℤ)
    (midi_sequence_to_midi_array : List ℤ → ℤ → ℤ → ℤ → List (ℤ × ℤ × ℤ))
    (ptq : QuantizedPitchTrack)
    (h : st.pitch_track_quantized = some ptq) :
    BassLineTranscriber.create_bass_line_MIDI_file st frequency_to_midi_sequence
        midi_sequence_to_midi_array
      = .ok (st.M.map (fun m =>
          BassLineTranscriber.MidiExport.mk m
            (midi_sequence_to_midi_array
              (frequency_to_midi_sequence ptq.entries st.silence_code) m
              st.frame_factor st.silence_code)
            (pathJoin st.midi_dir (toString m))))
    ∧ ∀ mA ∈ ([1, 2, 4, 8] : List ℤ), ∀ mB ∈ ([1, 2, 4, 8] : List ℤ),
        mA ≠ mB →
        pathJoin st.midi_dir (toString mA) ≠ pathJoin st.midi_dir (toString mB) := by
  constructor
  · unfold BassLineTranscriber.create_bass_line_MIDI_file
    rw [h]
  · intro mA hA mB hB hne
    simp only [List.mem_cons, List.mem_singleton, List.not_mem_nil, or_false] at hA hB
    rcases hA with rfl | rfl | rfl | rfl <;> rcases hB with rfl | rfl | rfl | rfl <;>
      first
        | exact absurd rfl hne
        | exact pathJoin_right_ne st.midi_dir _ _ (by with_unfolding_all decide)
            (by with_unfolding_all decide) (by decide)

/-- Witness for C6 at the concrete state `st0` with `M = [1, 2]`. -/
theorem create_bass_line_MIDI_file_per_M_witness :
    BassLineTranscriber.create_bass_line_MIDI_file st0 f2m0 m2a0
      = .ok (st0.M.map (fun m =>
          BassLineTranscriber.MidiExport.mk m
            (m2a0 (f2m0 ptq0.entries st0.silence_code) m st0.frame_factor
              st0.silence_code)
            (pathJoin st0.midi_dir (toString m))))
    ∧ ∀ mA ∈ ([1, 2, 4, 8] : List ℤ), ∀ mB ∈ ([1, 2, 4, 8] : List ℤ),
        mA ≠ mB →
        pathJoin st0.midi_dir (toString mA) ≠ pathJoin st0.midi_dir (toString mB) :=
  create_bass_line_MIDI_file_per_M st0 f2m0 m2a0 ptq0 rfl

/-- Claim C10: for every exception raised during single-track extraction other
than `KeyboardInterrupt`, `extract_single_bassline` catches it, logs it through
`exception_logger`, and returns normally — it never lets an exception propagate
to the batch loop; on `KeyboardInterrupt` (and only then) it exits the
process. -/
theorem extract_single_bassline_catches_all (body : Option PyExc)
    (exceptionsDir date title : String) :
    (extract_single_bassline body exceptionsDir date title = .exited
      ↔ body = some .keyboardInterrupt)
    ∧ (∀ e, body = some e → e ≠ .keyboardInterrupt →
        extract_single_bassline body exceptionsDir date title
          = .completed (some (exception_logger exceptionsDir date title
              (textIdOf e))))
    ∧ (∀ e, extract_single_bassline body exceptionsDir date title
        ≠ .propagated e) := by
  refine ⟨?_, ?_, ?_⟩
  · cases body with
    | none => simp [extract_single_bassline, tryExcept]
    | some e =>
      cases e <;>
        simp [extract_single_bassline, tryExcept, matchesClass, List.find?]
  · intro e hbody hne
    subst hbody
    cases e with
    | keyboardInterrupt => exact absurd rfl hne
    | keyError => rfl
    | fileNotFoundError => rfl
    | runtimeError => rfl
    | otherException => rfl
  · intro e
    cases body with
    | none => intro hc; exact Outcome.noConfusion hc
    | some eb => cases eb <;> (intro hc; exact Outcome.noConfusion hc)

/-- Witness for C10: a `KeyError` is logged and the call returns normally; a
`KeyboardInterrupt` exits. -/
theorem extract_single_bassline_catches_all_witness :
    extract_single_bassline (some .keyError) "exceptions" "2021-06-01" "track"
        = .completed (some (exception_logger "exceptions" "2021-06-01" "track"
            (textIdOf .keyError)))
    ∧ extract_single_bassline (some .keyboardInterrupt) "exceptions"
        "2021-06-01" "track" = .exited :=
  ⟨(extract_single_bassline_catches_all (some .keyError) "exceptions"
      "2021-06-01" "track").2.1 .keyError rfl (by decide),
   (extract_single_bassline_catches_all (some .keyboardInterrupt) "exceptions"
      "2021-06-01" "track").1.mpr rfl⟩
